import Mathlib

/-!
Verification of the todo-app record store (src/src/App.tsx).

The source is a single React component. Its persistent-store core consists of
the functions `loadTodos`, `saveTodos`, `addTodo`, `deleteTodo`,
`toggleTodoStatus` and the `filteredTodos` projection, operating on the
component state `todos : Todo[]`. We embed these shallowly:

* React state updates (`setTodos`) become the returned list;
* the side effects of a mutation (the `saveTodos` call and the
  `showNotification` call) are recorded as an explicit `Effect` list, in the
  order the source issues them;
* the browser/host environment (`window.electronAPI`, `localStorage`,
  `JSON.parse`) is a parameter: `JSON.parse` is a JS builtin, so only its
  outcome on the stored string is modelled, not its grammar;
* a thrown JS exception / rejected promise is `Except.error`.
-/

set_option autoImplicit false

namespace TodoApp

/-- The `status` field of a `Todo`: the literal strings `"Pending" | "Completed"`
in the source. -/
inductive Status where
  | Pending
  | Completed
deriving DecidableEq

/-- The `Todo` interface of the source: `{ id: number; text: string;
status: "Pending" | "Completed" }`. `id` is produced by `Date.now()`, a
non-negative integer, modelled as `Nat`. -/
structure Todo where
  id : Nat
  text : String
  status : Status
deriving DecidableEq

/-- The string a `Status` renders to, as compared with `===` in the source. -/
def statusString : Status → String
  | .Pending => "Pending"
  | .Completed => "Completed"

/-- A side effect issued by a mutation: a `saveTodos(updatedTodos)` call or a
`showNotification(title, body)` call. -/
inductive Effect where
  | save (todos : List Todo)
  | notify (title : String) (body : String)
deriving DecidableEq

/-- JS `String.prototype.trim` as called by `addTodo`: drops leading and
trailing whitespace. It is modelled structurally on the character list
(`String.trim` itself is defined through well-founded recursion and does not
reduce in the kernel, so concrete witnesses could not evaluate it). -/
def jsTrim (s : String) : String :=
  String.mk (((s.data.dropWhile Char.isWhitespace).reverse.dropWhile Char.isWhitespace).reverse)

/-- The arrow function inside `toggleTodoStatus`'s `todos.map`: flips the
status of the todo whose `id` matches, leaves every other todo unchanged. -/
def toggleOne (id : Nat) (todo : Todo) : Todo :=
  if todo.id = id then
    { todo with status := if todo.status = Status.Pending then Status.Completed else Status.Pending }
  else todo

/-- `addTodo` from the source. Reads the `newTodo` text field and the current
`todos`; `Date.now()` is the parameter `now`. If `newTodo.trim()` is truthy
(non-empty), appends `{ id: Date.now(), text: newTodo.trim(), status: "Pending" }`
at the tail, sets the state to the updated list, saves, and notifies
"Todo Added"; otherwise nothing happens. -/
def addTodo (now : Nat) (newTodo : String) (todos : List Todo) : List Todo × List Effect :=
  if jsTrim newTodo ≠ "" then
    let updatedTodos := todos ++ [{ id := now, text := jsTrim newTodo, status := Status.Pending }]
    (updatedTodos, [Effect.save updatedTodos, Effect.notify "Todo Added" "A new todo has been added."])
  else (todos, [])

/-- `deleteTodo(id)` from the source: filters out todos whose `id` matches
(`todo.id !== id`), sets state, saves, notifies "Todo Deleted". -/
def deleteTodo (id : Nat) (todos : List Todo) : List Todo × List Effect :=
  let updatedTodos := todos.filter (fun todo => todo.id ≠ id)
  (updatedTodos, [Effect.save updatedTodos, Effect.notify "Todo Deleted" "A todo has been deleted."])

/-- `toggleTodoStatus(id)` from the source: maps `toggleOne` over the list,
sets state, saves, and notifies with a body interpolating
`updatedTodos.find((todo) => todo.id === id)?.status` — which is the JS value
`undefined` (rendered `"undefined"` by the template literal) when no todo has
that id. -/
def toggleTodoStatus (id : Nat) (todos : List Todo) : List Todo × List Effect :=
  let updatedTodos := todos.map (toggleOne id)
  (updatedTodos,
    [Effect.save updatedTodos,
     Effect.notify "Todo Status Updated"
       ("A todo has been marked as " ++
         (match updatedTodos.find? (fun todo => todo.id == id) with
          | some todo => statusString todo.status
          | none => "undefined") ++ ".")])

/-- The filter selector state: `"All" | "Pending" | "Completed"`. -/
inductive Filter where
  | All
  | Pending
  | Completed
deriving DecidableEq

/-- The string a `Filter` value is, as compared with `===` in the source. -/
def filterString : Filter → String
  | .All => "All"
  | .Pending => "Pending"
  | .Completed => "Completed"

/-- `filteredTodos` from the source:
`filter === "All" ? todos : todos.filter((todo) => todo.status === filter)`. -/
def filteredTodos (filter : Filter) (todos : List Todo) : List Todo :=
  if filterString filter = "All" then todos
  else todos.filter (fun todo => statusString todo.status = filterString filter)

/-- Outcome of `window.electronAPI.getOfflineData()` as used by `loadTodos`:
the promise rejects (`throws`), or resolves with falsy data / data without a
truthy `todos` field (`noData`), or resolves with `{ todos: [...] }`
(`withTodos`). -/
inductive HostLoad where
  | throws (msg : String)
  | noData
  | withTodos (todos : List Todo)

/-- The environment `loadTodos` runs in. `host r` is the
`window.electronAPI` branch with `getOfflineData` outcome `r`. `web p` is the
`localStorage` branch: `p = none` when `localStorage.getItem("todos")` is
`null` or `""` (falsy), otherwise `p = some (JSON.parse outcome of the stored
string)` — `Except.error e` when the stored string is malformed and
`JSON.parse` throws. -/
inductive LoadEnv where
  | host (result : HostLoad)
  | web (parsedStored : Option (Except String (List Todo)))

/-- `loadTodos` from the source, as a function of the environment and the
current (initial) state. The `electronAPI` branch wraps `getOfflineData` in
`try/catch` (a rejection is logged and the state kept); the `localStorage`
branch calls `JSON.parse(storedTodos)` with no `try/catch`, so a parse
exception propagates (`Except.error`). -/
def loadTodos (env : LoadEnv) (init : List Todo) : Except String (List Todo) :=
  match env with
  | .host (.throws _) => .ok init
  | .host .noData => .ok init
  | .host (.withTodos ts) => .ok ts
  | .web none => .ok init
  | .web (some (.ok ts)) => .ok ts
  | .web (some (.error e)) => .error e

/-- Which backend is active for the process: `electron` when
`window.electronAPI` is present, `web` (localStorage) otherwise. -/
inductive Backend where
  | electron
  | web

/-- Behaviour of the environment's write primitives:
`electronAPI.saveOfflineData` (the promise's outcome) and
`localStorage.setItem` (which throws, e.g. on quota, or succeeds). -/
structure BackendBehavior where
  saveOfflineData : List Todo → Except String Unit
  setItem : String → String → Except String Unit

/-- The `JSON.stringify` image of one todo, for the payload shape the source
stores (escaping of special characters inside `text` is not modelled). -/
def stringifyTodo (t : Todo) : String :=
  "\x7b\"id\":" ++ toString t.id ++ ",\"text\":\"" ++ t.text ++ "\",\"status\":\"" ++
    statusString t.status ++ "\"\x7d"

/-- The `JSON.stringify` image of the whole sequence. -/
def stringifyTodos (todos : List Todo) : String :=
  "[" ++ String.intercalate "," (todos.map stringifyTodo) ++ "]"

/-- `saveTodos(updatedTodos)` from the source. On the electron backend it
awaits `saveOfflineData({ todos: updatedTodos })`; on the web backend it calls
`localStorage.setItem("todos", JSON.stringify(updatedTodos))`. There is no
`try/catch` in either branch: a failure of the primitive is the failure of
`saveTodos`. -/
def saveTodos (bk : Backend) (b : BackendBehavior) (updatedTodos : List Todo) :
    Except String Unit :=
  match bk with
  | .electron => b.saveOfflineData updatedTodos
  | .web => b.setItem "todos" (stringifyTodos updatedTodos)

/-- Runs the `save` effects of a mutation against the active backend,
collecting each `saveTodos` call's outcome. The mutators call `saveTodos`
without `await`, so these outcomes are detached: they are returned alongside
the new state but nothing downstream consumes them. -/
def runSaves (bk : Backend) (b : BackendBehavior) : List Effect → List (Except String Unit)
  | [] => []
  | Effect.save ts :: rest => saveTodos bk b ts :: runSaves bk b rest
  | Effect.notify _ _ :: rest => runSaves bk b rest

/-- `addTodo` together with its fire-and-forget saves executed against a
backend: the pair of the state the caller observes and the detached save
outcomes. -/
def addTodoWith (bk : Backend) (b : BackendBehavior) (now : Nat) (newTodo : String)
    (todos : List Todo) : List Todo × List (Except String Unit) :=
  ((addTodo now newTodo todos).1, runSaves bk b (addTodo now newTodo todos).2)

/-- `toggleTodoStatus` together with its fire-and-forget saves. -/
def toggleTodoStatusWith (bk : Backend) (b : BackendBehavior) (id : Nat)
    (todos : List Todo) : List Todo × List (Except String Unit) :=
  ((toggleTodoStatus id todos).1, runSaves bk b (toggleTodoStatus id todos).2)

/-- `deleteTodo` together with its fire-and-forget saves. -/
def deleteTodoWith (bk : Backend) (b : BackendBehavior) (id : Nat)
    (todos : List Todo) : List Todo × List (Except String Unit) :=
  ((deleteTodo id todos).1, runSaves bk b (deleteTodo id todos).2)

/-- A backend whose write primitive always rejects. -/
def rejectingBackend : BackendBehavior where
  saveOfflineData := fun _ => Except.error "save rejected"
  setItem := fun _ _ => Except.error "save rejected"

/-- Id uniqueness of a sequence: any two distinct positions hold different ids. -/
@[reducible] def idsUnique (todos : List Todo) : Prop :=
  List.Pairwise (fun a b => a.id ≠ b.id) todos

/-! ## Helper lemmas -/

theorem toggleOne_id (tid : Nat) (t : Todo) : (toggleOne tid t).id = t.id := by
  rcases t with ⟨i, x, s⟩
  by_cases h : i = tid <;> simp [toggleOne, h]

theorem toggleOne_toggleOne (tid : Nat) (t : Todo) : toggleOne tid (toggleOne tid t) = t := by
  rcases t with ⟨i, x, s⟩
  by_cases h : i = tid <;> cases s <;> simp [toggleOne, h]

theorem toggleOne_of_ne (tid : Nat) (t : Todo) (h : t.id ≠ tid) : toggleOne tid t = t := by
  simp [toggleOne, h]

theorem map_toggleOne_of_absent (tid : Nat) (todos : List Todo)
    (h : ∀ t ∈ todos, t.id ≠ tid) : todos.map (toggleOne tid) = todos := by
  induction todos with
  | nil => rfl
  | cons t ts ih =>
    simp only [List.map_cons]
    rw [toggleOne_of_ne tid t (h t (List.mem_cons_self t ts)),
      ih (fun x hx => h x (List.mem_cons_of_mem t hx))]

theorem statusString_completed_eq_not_pending (t : Todo) :
    (decide (statusString t.status = "Completed")) =
      !(decide (statusString t.status = "Pending")) := by
  cases t.status <;> rfl

end TodoApp

namespace TodoApp

/-! ## Claims -/

/-- C4: for every text whose trimmed form is non-empty and every current
sequence, `addTodo` appends exactly one new record at the tail, carrying the
trimmed text and status Pending, and returns the updated sequence, whose
length grew by exactly 1. -/
theorem addTodo_nonempty_appends (now : Nat) (text : String) (todos : List Todo)
    (h : jsTrim text ≠ "") :
    (addTodo now text todos).1 =
      todos ++ [{ id := now, text := jsTrim text, status := Status.Pending }] ∧
    (addTodo now text todos).1.length = todos.length + 1 := by
  constructor <;> simp [addTodo, h]

theorem addTodo_nonempty_appends_witness :
    (jsTrim " buy milk " ≠ "") ∧
    ((addTodo 7 " buy milk " ([] : List Todo)).1 =
        [] ++ [{ id := 7, text := jsTrim " buy milk ", status := Status.Pending }] ∧
      (addTodo 7 " buy milk " ([] : List Todo)).1.length = ([] : List Todo).length + 1) :=
  ⟨by decide, addTodo_nonempty_appends 7 " buy milk " [] (by decide)⟩

/-- C5: for every text whose trimmed form is empty and every current sequence,
`addTodo` is a no-op: the sequence is unchanged and no effect (no save, no
notification) is issued, so no record is created. -/
theorem addTodo_blank_noop (now : Nat) (text : String) (todos : List Todo)
    (h : jsTrim text = "") :
    addTodo now text todos = (todos, []) := by
  simp [addTodo, h]

theorem addTodo_blank_noop_witness :
    (jsTrim "   " = "") ∧
    addTodo 3 "   " [({ id := 1, text := "a", status := Status.Pending } : Todo)] =
      ([{ id := 1, text := "a", status := Status.Pending }], []) :=
  ⟨by decide, addTodo_blank_noop 3 "   " _ (by decide)⟩

/-- C8: `deleteTodo id` keeps exactly the records whose id differs, preserving
their relative order (the result is a sublist of the input), and a second
`deleteTodo id` on the result is a no-op. -/
theorem deleteTodo_spec (tid : Nat) (todos : List Todo) :
    (∀ t, t ∈ (deleteTodo tid todos).1 ↔ t ∈ todos ∧ t.id ≠ tid) ∧
    ((deleteTodo tid todos).1).Sublist todos ∧
    (deleteTodo tid (deleteTodo tid todos).1).1 = (deleteTodo tid todos).1 := by
  refine ⟨fun t => ?_, ?_, ?_⟩
  · simp [deleteTodo]
  · exact List.filter_sublist todos
  · simp [deleteTodo, List.filter_filter]

/-- C9: toggling an id that occurs nowhere in the sequence leaves the
sequence unchanged. -/
theorem toggleTodoStatus_absent_id_noop (tid : Nat) (todos : List Todo)
    (h : ∀ t ∈ todos, t.id ≠ tid) :
    (toggleTodoStatus tid todos).1 = todos :=
  map_toggleOne_of_absent tid todos h

theorem toggleTodoStatus_absent_id_noop_witness :
    (∀ t ∈ [({ id := 1, text := "a", status := Status.Pending } : Todo)], Todo.id t ≠ 2) ∧
    (toggleTodoStatus 2 [({ id := 1, text := "a", status := Status.Pending } : Todo)]).1 =
      [{ id := 1, text := "a", status := Status.Pending }] :=
  ⟨by decide, toggleTodoStatus_absent_id_noop 2 _ (by decide)⟩

/-- C6: for every sequence, the Pending view and the Completed view together
are a permutation of the full sequence (so their union as sets is the full
sequence, with no duplicates and no omissions), and the All view is the
identity. `filteredTodos` is a pure projection by construction: it returns a
view and issues no effect. -/
theorem filteredTodos_partition (todos : List Todo) :
    (filteredTodos Filter.Pending todos ++ filteredTodos Filter.Completed todos).Perm todos ∧
    filteredTodos Filter.All todos = todos := by
  constructor
  · have hp : filteredTodos Filter.Pending todos =
        todos.filter (fun t => decide (statusString t.status = "Pending")) := by
      simp [filteredTodos, filterString]
    have hc : filteredTodos Filter.Completed todos =
        todos.filter (fun t => !(decide (statusString t.status = "Pending"))) := by
      rw [filteredTodos]
      simp only [filterString]
      rw [if_neg (by decide)]
      exact List.filter_congr fun t _ => statusString_completed_eq_not_pending t
    rw [hp, hc]
    exact List.filter_append_perm _ todos
  · rfl

/-- C7: toggling an id present in the sequence twice in succession restores
the original sequence (hence the record's original status), and one toggle
flips exactly the matching record: Pending becomes Completed and Completed
becomes Pending, every other record staying unchanged. -/
theorem toggleTodoStatus_involutive (tid : Nat) (todos : List Todo)
    (_h : ∃ t ∈ todos, t.id = tid) :
    (toggleTodoStatus tid (toggleTodoStatus tid todos).1).1 = todos ∧
    (∀ t ∈ todos, t.id = tid →
      ({ t with status := if t.status = Status.Pending then Status.Completed else Status.Pending } : Todo)
        ∈ (toggleTodoStatus tid todos).1) ∧
    (∀ t ∈ todos, t.id ≠ tid → t ∈ (toggleTodoStatus tid todos).1) := by
  refine ⟨?_, fun t ht htid => ?_, fun t ht htid => ?_⟩
  · show (todos.map (toggleOne tid)).map (toggleOne tid) = todos
    rw [List.map_map]
    have : ∀ t ∈ todos, (toggleOne tid ∘ toggleOne tid) t = id t := fun t _ =>
      toggleOne_toggleOne tid t
    rw [List.map_congr_left this, List.map_id]
  · exact List.mem_map.mpr ⟨t, ht, by simp [toggleOne, htid]⟩
  · exact List.mem_map.mpr ⟨t, ht, toggleOne_of_ne tid t htid⟩

theorem toggleTodoStatus_involutive_witness :
    (∃ t ∈ [({ id := 1, text := "a", status := Status.Pending } : Todo)], Todo.id t = 1) ∧
    ((toggleTodoStatus 1 (toggleTodoStatus 1
        [({ id := 1, text := "a", status := Status.Pending } : Todo)]).1).1 =
          [{ id := 1, text := "a", status := Status.Pending }] ∧
      (∀ t ∈ [({ id := 1, text := "a", status := Status.Pending } : Todo)], Todo.id t = 1 →
        ({ t with status := if t.status = Status.Pending then Status.Completed else Status.Pending } : Todo)
          ∈ (toggleTodoStatus 1 [({ id := 1, text := "a", status := Status.Pending } : Todo)]).1) ∧
      (∀ t ∈ [({ id := 1, text := "a", status := Status.Pending } : Todo)], Todo.id t ≠ 1 →
        t ∈ (toggleTodoStatus 1 [({ id := 1, text := "a", status := Status.Pending } : Todo)]).1)) :=
  ⟨by decide, toggleTodoStatus_involutive 1 _ (by decide)⟩

/-- C10: toggling an id absent from the sequence is not effect-free even
though the sequence is unchanged: the mutation still issues a save of the
full (unchanged) sequence and still issues a notification whose body
interpolates the `undefined` result of looking up the missing record. -/
theorem toggleTodoStatus_absent_id_effects (tid : Nat) (todos : List Todo)
    (h : ∀ t ∈ todos, t.id ≠ tid) :
    (toggleTodoStatus tid todos).1 = todos ∧
    (toggleTodoStatus tid todos).2 =
      [Effect.save todos,
       Effect.notify "Todo Status Updated" "A todo has been marked as undefined."] := by
  have hmap : todos.map (toggleOne tid) = todos := map_toggleOne_of_absent tid todos h
  have hfind : todos.find? (fun todo => todo.id == tid) = none :=
    List.find?_eq_none.mpr fun t ht => by simpa using h t ht
  refine ⟨hmap, ?_⟩
  show [Effect.save (todos.map (toggleOne tid)),
      Effect.notify "Todo Status Updated"
        ("A todo has been marked as " ++
          (match (todos.map (toggleOne tid)).find? (fun todo => todo.id == tid) with
           | some todo => statusString todo.status
           | none => "undefined") ++ ".")] = _
  rw [hmap, hfind]
  rfl

theorem toggleTodoStatus_absent_id_effects_witness :
    (∀ t ∈ [({ id := 1, text := "a", status := Status.Pending } : Todo)], Todo.id t ≠ 2) ∧
    ((toggleTodoStatus 2 [({ id := 1, text := "a", status := Status.Pending } : Todo)]).1 =
        [{ id := 1, text := "a", status := Status.Pending }] ∧
      (toggleTodoStatus 2 [({ id := 1, text := "a", status := Status.Pending } : Todo)]).2 =
        [Effect.save [{ id := 1, text := "a", status := Status.Pending }],
         Effect.notify "Todo Status Updated" "A todo has been marked as undefined."]) :=
  ⟨by decide, toggleTodoStatus_absent_id_effects 2 _ (by decide)⟩

/-- C1 counterexample: in the `localStorage` branch, a stored string whose
`JSON.parse` fails makes `loadTodos` propagate the exception instead of
returning the empty sequence — the claim that every malformed payload yields
the empty sequence without throwing is false on this path. -/
theorem loadTodos_parse_failure_propagates :
    loadTodos (LoadEnv.web (some (Except.error "SyntaxError: Unexpected end of JSON input")))
        [] =
      Except.error "SyntaxError: Unexpected end of JSON input" := rfl

/-- C1 amended: the `electronAPI` load path never throws — a rejected
`getOfflineData` is caught and absent data is skipped, both keeping the
current (initially empty) sequence; on the `localStorage` path an absent or
empty slot keeps the current sequence, a successfully parsed payload replaces
it, but a payload whose parse fails makes `loadTodos` propagate the parse
exception. -/
theorem loadTodos_error_handling :
    (∀ (r : HostLoad) (init : List Todo), ∃ ts, loadTodos (LoadEnv.host r) init = Except.ok ts) ∧
    (∀ (msg : String) (init : List Todo),
      loadTodos (LoadEnv.host (HostLoad.throws msg)) init = Except.ok init) ∧
    (∀ init : List Todo, loadTodos (LoadEnv.host HostLoad.noData) init = Except.ok init) ∧
    (∀ (ts init : List Todo),
      loadTodos (LoadEnv.host (HostLoad.withTodos ts)) init = Except.ok ts) ∧
    (∀ init : List Todo, loadTodos (LoadEnv.web none) init = Except.ok init) ∧
    (∀ (ts init : List Todo),
      loadTodos (LoadEnv.web (some (Except.ok ts))) init = Except.ok ts) ∧
    (∀ (e : String) (init : List Todo),
      loadTodos (LoadEnv.web (some (Except.error e))) init = Except.error e) := by
  refine ⟨fun r init => ?_, fun _ _ => rfl, fun _ => rfl, fun _ _ => rfl, fun _ => rfl,
    fun _ _ => rfl, fun _ _ => rfl⟩
  cases r <;> exact ⟨_, rfl⟩

/-- C2 counterexample: `saveTodos` contains no `try/catch`, so a backend whose
write primitive rejects makes `saveTodos` itself fail — the failure is not
caught (and nothing logs it), refuting the claim that a failing save is
caught and logged. -/
theorem saveTodos_error_not_caught :
    saveTodos Backend.electron rejectingBackend [] = Except.error "save rejected" ∧
    saveTodos Backend.web rejectingBackend [] = Except.error "save rejected" :=
  ⟨rfl, rfl⟩

/-- C2 amended: a failing backend save is neither caught nor logged — it
rejects the `saveTodos` promise — but because the mutators call `saveTodos`
without awaiting it, the failure is never thrown to the caller of
`addTodo`/`toggleTodoStatus`/`deleteTodo`: the sequence the caller observes
equals the pure in-memory mutation for every backend behaviour (so the
mutation is never rolled back), and is identical under any two behaviours. -/
theorem save_failure_never_reaches_caller (bk : Backend) (b b' : BackendBehavior)
    (now tid : Nat) (text : String) (todos : List Todo) :
    (addTodoWith bk b now text todos).1 = (addTodo now text todos).1 ∧
    (toggleTodoStatusWith bk b tid todos).1 = (toggleTodoStatus tid todos).1 ∧
    (deleteTodoWith bk b tid todos).1 = (deleteTodo tid todos).1 ∧
    (addTodoWith bk b now text todos).1 = (addTodoWith bk b' now text todos).1 ∧
    (toggleTodoStatusWith bk b tid todos).1 = (toggleTodoStatusWith bk b' tid todos).1 ∧
    (deleteTodoWith bk b tid todos).1 = (deleteTodoWith bk b' tid todos).1 :=
  ⟨rfl, rfl, rfl, rfl, rfl, rfl⟩

/-- C3 counterexample: ids come from `Date.now()`, so two `addTodo` calls in
the same millisecond (here both at time 5) produce two records with the same
id — id uniqueness after two consecutive adds is false. -/
theorem addTodo_same_millisecond_duplicate_ids :
    ¬ idsUnique (addTodo 5 "second" (addTodo 5 "first" []).1).1 := by decide

/-- C3 amended: id uniqueness is preserved by every operation provided each
`addTodo` call's `Date.now()` value differs from every id already in the
sequence (in particular, consecutive adds must fall in distinct
milliseconds): under that freshness hypothesis `addTodo` preserves
uniqueness, and `toggleTodoStatus` and `deleteTodo` preserve it
unconditionally. -/
theorem idsUnique_preserved (todos : List Todo) (now : Nat) (text : String) (tid : Nat)
    (h1 : idsUnique todos) (h2 : now ∉ todos.map Todo.id) :
    idsUnique (addTodo now text todos).1 ∧
    idsUnique (toggleTodoStatus tid todos).1 ∧
    idsUnique (deleteTodo tid todos).1 := by
  refine ⟨?_, ?_, ?_⟩
  · by_cases ht : jsTrim text = ""
    · simpa [addTodo, ht] using h1
    · have : (addTodo now text todos).1 =
          todos ++ [{ id := now, text := jsTrim text, status := Status.Pending }] := by
        simp [addTodo, ht]
      rw [this, idsUnique, List.pairwise_append]
      refine ⟨h1, by simp, fun a ha b hb => ?_⟩
      have hb' : b = { id := now, text := jsTrim text, status := Status.Pending } := by
        simpa using hb
      subst hb'
      intro heq
      have ha' : a.id = now := heq
      exact h2 (ha' ▸ List.mem_map_of_mem Todo.id ha)
  · show idsUnique (todos.map (toggleOne tid))
    rw [idsUnique, List.pairwise_map]
    exact h1.imp fun hab => by simpa [toggleOne_id] using hab
  · exact h1.sublist (List.filter_sublist todos)

theorem idsUnique_preserved_witness :
    idsUnique [({ id := 1, text := "a", status := Status.Pending } : Todo)] ∧
    (2 ∉ [({ id := 1, text := "a", status := Status.Pending } : Todo)].map Todo.id) ∧
    (idsUnique (addTodo 2 "b" [({ id := 1, text := "a", status := Status.Pending } : Todo)]).1 ∧
      idsUnique
        (toggleTodoStatus 1 [({ id := 1, text := "a", status := Status.Pending } : Todo)]).1 ∧
      idsUnique (deleteTodo 1 [({ id := 1, text := "a", status := Status.Pending } : Todo)]).1) :=
  ⟨by decide, by decide, idsUnique_preserved _ 2 "b" 1 (by decide) (by decide)⟩

end TodoApp
